import Mathlib

/-!
Shallow embedding of `build_dataset/qa_builder.py` (synthetic QA dataset
builder) together with a spec-modelled fragment of the one-shot record
assembler. Randomness (`random.choice`) is modelled by an explicit stream of
natural numbers, one index per draw; the OpenAI endpoint is modelled by an
oracle function from the message list and the attempt number to an outcome.
-/

namespace QaBuilder

/-- A chat message with a role tag, as passed to the completion endpoint. -/
structure Msg where
  role : String
  content : String
deriving DecidableEq, Repr

/-- The record shape produced by `process_one`: exactly the three fields
`task`, `user`, `chain`. -/
structure QARecord where
  task : String
  user : String
  chain : String
deriving DecidableEq, Repr

/-- Outcome classification of one attempt against the endpoint:
`openai.error.RateLimitError` (the only class the retry decorator catches)
versus any other exception. -/
inductive ApiError where
  | rateLimit
  | other
deriving DecidableEq, Repr

/-- One raw attempt against the endpoint either returns the first completion
choice text or raises. -/
abbrev Attempt := Except ApiError String

/-- Errors observable from `main`: the missing-credential RuntimeError, or an
API error propagated out of `call_gpt4o`. -/
inductive MainError where
  | missingKey
  | api (e : ApiError)
deriving DecidableEq, Repr

/-- A single-quote character, used to assemble the prompt strings literally. -/
def squote : String := String.singleton (Char.ofNat 39)

/-- The system prompt for the PMC-LLaMA QA task (module constant
`system_message` in the source). -/
def system_message : String :=
  "You" ++ squote ++ "re a clinical question–answering assistant powered by the PMC-LLaMA model.\n" ++
  "When you receive a medical question, you MUST output exactly:\n" ++
  "Question: <the user" ++ squote ++ "s question>\n" ++
  "Answer:\n" ++
  "<thoughts> Why PMC-LLaMA is the right tool and how you" ++ squote ++ "ll retrieve evidence.\n" ++
  "<actions> [\x7b" ++ squote ++ "tool name" ++ squote ++ ":" ++ squote ++ "PMC-LLaMA" ++ squote ++ ", " ++
    squote ++ "tool params" ++ squote ++ ":\x7b" ++ squote ++ "query" ++ squote ++ ":" ++ squote ++
    "<the user" ++ squote ++ "s question>" ++ squote ++ "\x7d\x7d]\n" ++
  "<values> <the final, evidence-based answer>\n"

/-- The pool of user question templates (module constant `user_templates`). -/
def user_templates : List String :=
  ["What are the primary risk factors for {disease}?",
   "How does {drug} work to treat {condition}?",
   "What is the long-term prognosis of a patient with {condition}?"]

/-- The assistant one-shot format template (module constant
`assistant_template`). -/
def assistant_template : String :=
  "Question: <question>\n\n" ++
  "Answer:\n\n" ++
  "<thoughts> I will search PubMed via PMC-LLaMA to gather authoritative sources.\n\n" ++
  "<actions> [\x7b" ++ squote ++ "tool name" ++ squote ++ ":" ++ squote ++ "PMC-LLaMA" ++ squote ++ "," ++
    squote ++ "tool params" ++ squote ++ ":\x7b" ++ squote ++ "query" ++ squote ++ ":" ++ squote ++
    "<question>" ++ squote ++ "\x7d\x7d]\n\n" ++
  "<values> <value>\n"

/-- The fixed pool for the `disease` placeholder in `sample_vars`. -/
def diseasePool : List String := ["diabetes", "hypertension", "COPD"]

/-- The fixed pool for the `drug` placeholder in `sample_vars`. -/
def drugPool : List String := ["aspirin", "metformin", "lisinopril"]

/-- The fixed pool for the `condition` placeholder in `sample_vars`. -/
def conditionPool : List String := ["heart failure", "asthma", "chronic kidney disease"]

/-- `random.choice l` modelled with an explicit random index: pick the
element at `i % l.length` (always in bounds for the nonempty pools used). -/
def choice (l : List String) (i : Nat) : String := l.getD (i % l.length) ""

/-- The mapping returned by `sample_vars`: one value per placeholder
category. -/
structure Vars where
  disease : String
  drug : String
  condition : String
deriving DecidableEq, Repr

/-- `sample_vars` from the source: one independent random draw per category
from its fixed pool; the three indices model the three `random.choice`
draws. -/
def sample_vars (i1 i2 i3 : Nat) : Vars :=
  { disease := choice diseasePool i1
    drug := choice drugPool i2
    condition := choice conditionPool i3 }

/-- Python `template.format(**vars)` on these templates: substitute each
named placeholder by the sampled value. -/
def fmt (t : String) (v : Vars) : String :=
  ((t.replace "{disease}" v.disease).replace "{drug}" v.drug).replace "{condition}" v.condition

/-- The warm-up assistant shot: `assistant_template` with `<question>` and
`<value>` substituted (the value is the ellipsis placeholder). -/
def assistant_shot (question : String) : String :=
  (assistant_template.replace "<question>" question).replace "<value>" "…"

/-- Trace of one `call_gpt4o` invocation under the retry decorator: how many
raw attempts were made, which sleeps happened between them, and the final
outcome (`.ok` text, or the exception re-raised to the caller). -/
structure CallTrace where
  attempts : Nat
  sleeps : List Nat
  result : Except ApiError String
deriving Repr

/-- The retry loop of the `retry` decorator (`tries`, `delay`, `backoff`):
try the attempt; a `RateLimitError` with tries remaining sleeps `delay` and
retries with `delay * backoff`; the last rate-limit failure, or any other
exception, is re-raised. `f a` is the outcome of raw attempt number `a`
(0-based). -/
def retryGo (f : Nat → Attempt) : Nat → Nat → Nat → Nat → CallTrace
  | _, 0, _, _ => { attempts := 0, sleeps := [], result := Except.error ApiError.rateLimit }
  | a, Nat.succ t, delay, backoff =>
    match f a with
    | Except.ok s => { attempts := 1, sleeps := [], result := Except.ok s }
    | Except.error ApiError.other =>
      { attempts := 1, sleeps := [], result := Except.error ApiError.other }
    | Except.error ApiError.rateLimit =>
      if t = 0 then
        { attempts := 1, sleeps := [], result := Except.error ApiError.rateLimit }
      else
        let rest := retryGo f (a + 1) t (delay * backoff) backoff
        { attempts := rest.attempts + 1, sleeps := delay :: rest.sleeps, result := rest.result }

/-- `call_gpt4o` under `@retry(openai.error.RateLimitError, tries=3, delay=2,
backoff=2)`: up to 3 attempts, sleeping 2 then 4 between them. The oracle
`f` gives each raw attempt's outcome. -/
def call_gpt4o (f : Nat → Attempt) : CallTrace := retryGo f 0 3 2 2

/-- The final user question of `process_one`: a freshly drawn template
formatted with the variables sampled at the start of the item (draw
indices: 0,1,2 for `sample_vars`, 6 for the final template choice). -/
def final_question (r : Nat → Nat) : String :=
  fmt (choice user_templates (r 6)) (sample_vars (r 0) (r 1) (r 2))

/-- One warm-up question of `process_one` (i = 0,1,2): a freshly drawn
template (draw index `3 + i`) formatted with the same sampled variables as
the final question. -/
def warm_question (r : Nat → Nat) (i : Nat) : String :=
  fmt (choice user_templates (r (3 + i))) (sample_vars (r 0) (r 1) (r 2))

/-- The message list `process_one` sends to the model: the system message,
then a loop of 3 warm-up user/assistant exchanges, then the final user
question. -/
def process_one_messages (r : Nat → Nat) : List Msg :=
  let withWarm := (List.range 3).foldl
    (fun ms i =>
      let question := warm_question r i
      ms ++ [Msg.mk "user" question, Msg.mk "assistant" (assistant_shot question)])
    [Msg.mk "system" system_message]
  withWarm ++ [Msg.mk "user" (final_question r)]

/-- `process_one` from the source: build the messages, make one `call_gpt4o`
call, and package the returned chain verbatim in a `task`/`user`/`chain`
record. Returns the call trace together with the record (or the propagated
error). `r` is the item's random stream; `api ms a` is the raw outcome of
attempt `a` for message list `ms`. -/
def process_one (r : Nat → Nat) (api : List Msg → Nat → Attempt) :
    CallTrace × Except ApiError QARecord :=
  let tr := call_gpt4o (api (process_one_messages r))
  (tr, tr.result.map (fun chain => { task := "QA", user := final_question r, chain := chain }))

/-- Python truthiness of `os.getenv(...)`: `None` and the empty string are
falsy, any other string is truthy. -/
def truthy : Option String → Bool
  | none => false
  | some s => !(s == "")

/-- Observable result of one `main` run: how many `process_one` invocations
were started, how many raw endpoint attempts were made, the JSON array
written to the output file (`none` when the run aborted before the single
final write), and the uncaught error if any. -/
structure RunResult where
  oneCalls : Nat
  attempts : Nat
  written : Option (List QARecord)
  err : Option MainError
deriving Repr

/-- The `for _ in range(n)` loop body of `main`, starting at item index `s`
with `n` iterations left: append each `process_one` result in order; the
first uncaught exception aborts the loop. Returns (number of `process_one`
invocations started, total raw attempts, collected results or the error). -/
def runLoop (rng : Nat → Nat → Nat) (api : Nat → List Msg → Nat → Attempt) :
    Nat → Nat → Nat × Nat × Except ApiError (List QARecord)
  | _, 0 => (0, 0, Except.ok [])
  | s, Nat.succ n =>
    match process_one (rng s) (api s) with
    | (tr, Except.error e) => (1, tr.attempts, Except.error e)
    | (tr, Except.ok rec) =>
      match runLoop rng api (s + 1) n with
      | (c, a, Except.ok rs) => (c + 1, tr.attempts + a, Except.ok (rec :: rs))
      | (c, a, Except.error e) => (c + 1, tr.attempts + a, Except.error e)

/-- `main` from the source: read the credential (`key`), raise the missing-key
RuntimeError if it is falsy, otherwise run `total_num` iterations of
`process_one` (a `range` over a possibly negative int yields
`total_num.toNat` iterations) and write the collected list once at the end.
`rng i` is the random stream of item `i`; `api i` is the endpoint oracle
for item `i`. -/
def main (key : Option String) (total_num : Int) (rng : Nat → Nat → Nat)
    (api : Nat → List Msg → Nat → Attempt) : RunResult :=
  if truthy key then
    match runLoop rng api 0 total_num.toNat with
    | (c, a, Except.ok rs) => { oneCalls := c, attempts := a, written := some rs, err := none }
    | (c, a, Except.error e) =>
      { oneCalls := c, attempts := a, written := none, err := some (MainError.api e) }
  else
    { oneCalls := 0, attempts := 0, written := none, err := some MainError.missingKey }

/-- Modelled from the spec: the one-shot variant's `tool params` mapping
(the source file of the one-shot builder is not present under src/; its
data model is taken from the spec's section 3). -/
structure ToolParams where
  query : String
deriving DecidableEq, Repr

/-- Modelled from the spec: an action, a mapping with keys `tool name` and
`tool params`. -/
structure Action where
  toolName : String
  toolParams : ToolParams
deriving DecidableEq, Repr

/-- Modelled from the spec: one conversation turn of the one-shot variant,
`\x7b from, value, thoughts?, actions? \x7d` with `from` either "human" or
"gpt". -/
structure Turn where
  fromRole : String
  value : String
  thoughts : Option String
  actions : Option (List Action)
deriving DecidableEq, Repr

/-- Modelled from the spec: the one-shot variant's output unit,
`\x7b id, instruction, conversations \x7d`. -/
structure ConvRecord where
  id : Nat
  instruction : String
  conversations : List Turn
deriving DecidableEq, Repr

/-- Modelled from the spec: the fixed placeholder value the assistant states
in its tool-call turn (the spec fixes only that it is a constant). -/
def placeholder_value : String := "<awaiting tool output>"

/-- Modelled from the spec: the fabricated tool output reported back to the
assistant, an object containing just the extracted answer, JSON-encoded. -/
def tool_output (answer : String) : String :=
  "\x7b\"text\": \"" ++ answer ++ "\"\x7d"

/-- Modelled from the spec: the one-shot variant's record assembler. Given a
question, the parsed (thoughts, actions, answer) triple, the instruction and
an entry index, it constructs the fixed 4-turn conversation: human asks the
question; the assistant states its intended tool call with the extracted
thoughts/actions and a fixed placeholder value; a synthetic human turn
reports the fabricated tool output; the assistant repeats the extracted
answer as the visible value. -/
def assemble_record (question thoughts : String) (actions : List Action)
    (answer : String) (instruction : String) (idx : Nat) : ConvRecord :=
  { id := idx
    instruction := instruction
    conversations :=
      [{ fromRole := "human", value := question, thoughts := none, actions := none },
       { fromRole := "gpt", value := placeholder_value, thoughts := some thoughts,
         actions := some actions },
       { fromRole := "human", value := tool_output answer, thoughts := none, actions := none },
       { fromRole := "gpt", value := answer, thoughts := none, actions := none }] }

/-- A concrete random stream for one item: always draw index 0. -/
def r0 : Nat → Nat := fun _ => 0

/-- A concrete per-item random stream for `main`: always draw index 0. -/
def rng0 : Nat → Nat → Nat := fun _ _ => 0

/-- A concrete endpoint oracle for one item that succeeds immediately. -/
def api1Ok : List Msg → Nat → Attempt := fun _ _ => Except.ok "x"

/-- A concrete endpoint oracle for `main` that succeeds immediately on every
item. -/
def apiOk : Nat → List Msg → Nat → Attempt := fun _ _ _ => Except.ok "x"

/-- A concrete endpoint oracle for `main` that rate-limits every attempt of
every item. -/
def apiRL : Nat → List Msg → Nat → Attempt := fun _ _ _ => Except.error ApiError.rateLimit

/-- A concrete raw-attempt oracle that rate-limits twice and then succeeds
on the third attempt. -/
def fThird : Nat → Attempt :=
  fun a => if a = 2 then Except.ok "x" else Except.error ApiError.rateLimit

/-- A concrete raw-attempt oracle that rate-limits every attempt. -/
def gRL : Nat → Attempt := fun _ => Except.error ApiError.rateLimit

/-- The record produced by `process_one` under `r0` and `api1Ok`. -/
def rec0 : QARecord := { task := "QA", user := final_question r0, chain := "x" }

/-- Drawing from a nonempty pool always yields an element of the pool. -/
theorem choice_mem (l : List String) (i : Nat) (h : l ≠ []) : choice l i ∈ l := by
  have hlen : 0 < l.length := List.length_pos.mpr h
  have hmod : i % l.length < l.length := Nat.mod_lt _ hlen
  unfold choice
  rw [List.getD_eq_getElem l "" hmod]
  exact List.getElem_mem hmod

/-- Unfolded shape of the message list built by `process_one`. -/
theorem process_one_messages_eq (r : Nat → Nat) : process_one_messages r =
    [Msg.mk "system" system_message,
     Msg.mk "user" (warm_question r 0), Msg.mk "assistant" (assistant_shot (warm_question r 0)),
     Msg.mk "user" (warm_question r 1), Msg.mk "assistant" (assistant_shot (warm_question r 1)),
     Msg.mk "user" (warm_question r 2), Msg.mk "assistant" (assistant_shot (warm_question r 2)),
     Msg.mk "user" (final_question r)] := rfl

/-- If every item succeeds, the loop runs all `n` iterations and collects the
records of items `s, s+1, ..., s+n-1` in order. -/
theorem runLoop_all_ok (rng : Nat → Nat → Nat) (api : Nat → List Msg → Nat → Attempt)
    (recs : Nat → QARecord)
    (h : ∀ i, (process_one (rng i) (api i)).2 = Except.ok (recs i)) :
    ∀ n s, ∃ a, runLoop rng api s n = (n, a, Except.ok ((List.range' s n).map recs)) := by
  intro n
  induction n with
  | zero => intro s; exact ⟨0, rfl⟩
  | succ n ih =>
    intro s
    obtain ⟨a, ha⟩ := ih (s + 1)
    have hp : process_one (rng s) (api s) =
        ((process_one (rng s) (api s)).1, Except.ok (recs s)) := by
      rw [← h s]
    refine ⟨(process_one (rng s) (api s)).1.attempts + a, ?_⟩
    rw [runLoop, hp, ha]
    simp [List.range'_succ]

/-- If items before `s + k` succeed and item `s + k` fails, the loop stops
after `k + 1` `process_one` invocations and propagates the error. -/
theorem runLoop_first_fail (rng : Nat → Nat → Nat) (api : Nat → List Msg → Nat → Attempt)
    (e : ApiError) :
    ∀ k n s, k < n →
      (process_one (rng (s + k)) (api (s + k))).2 = Except.error e →
      (∀ j, j < k → ∃ rec, (process_one (rng (s + j)) (api (s + j))).2 = Except.ok rec) →
      ∃ a, runLoop rng api s n = (k + 1, a, Except.error e) := by
  intro k
  induction k with
  | zero =>
    intro n s hk hfail _
    obtain ⟨n, rfl⟩ : ∃ m, n = m + 1 := ⟨n - 1, by omega⟩
    have hp : process_one (rng s) (api s) =
        ((process_one (rng s) (api s)).1, Except.error e) := by
      rw [← hfail]; simp
    refine ⟨(process_one (rng s) (api s)).1.attempts, ?_⟩
    rw [runLoop, hp]
  | succ k ih =>
    intro n s hk hfail hok
    obtain ⟨n, rfl⟩ : ∃ m, n = m + 1 := ⟨n - 1, by omega⟩
    obtain ⟨rec, hrec⟩ := hok 0 (Nat.succ_pos k)
    have hp : process_one (rng s) (api s) =
        ((process_one (rng s) (api s)).1, Except.ok rec) := by
      rw [← hrec]; simp
    have hfail' : (process_one (rng (s + 1 + k)) (api (s + 1 + k))).2 = Except.error e := by
      have hs : s + 1 + k = s + (k + 1) := by omega
      rw [hs]; exact hfail
    have hok' : ∀ j, j < k → ∃ rec,
        (process_one (rng (s + 1 + j)) (api (s + 1 + j))).2 = Except.ok rec := by
      intro j hj
      have hs : s + 1 + j = s + (j + 1) := by omega
      rw [hs]; exact hok (j + 1) (by omega)
    obtain ⟨a, ha⟩ := ih n (s + 1) (by omega) hfail' hok'
    refine ⟨(process_one (rng s) (api s)).1.attempts + a, ?_⟩
    rw [runLoop, hp, ha]

/-- C1: for every `total_num ≥ 0`, when every item's call succeeds, `main`
invokes `process_one` exactly `total_num` times and writes a collection of
exactly `total_num` records, in the same order as the iterations that
produced them (`i`-th written record = record of iteration `i`). -/
theorem main_invokes_and_writes_in_order (key : Option String) (t : Int)
    (rng : Nat → Nat → Nat) (api : Nat → List Msg → Nat → Attempt) (recs : Nat → QARecord)
    (hk : truthy key = true) (ht : 0 ≤ t)
    (h : ∀ i, (process_one (rng i) (api i)).2 = Except.ok (recs i)) :
    (main key t rng api).oneCalls = t.toNat ∧
    ((t.toNat : Int) = t) ∧
    (main key t rng api).written = some ((List.range t.toNat).map recs) ∧
    ((List.range t.toNat).map recs).length = t.toNat := by
  obtain ⟨a, ha⟩ := runLoop_all_ok rng api recs h t.toNat 0
  rw [← List.range_eq_range'] at ha
  refine ⟨?_, by omega, ?_, by simp⟩ <;> simp [main, hk, ha]

/-- C1 witness: with the credential present, `total_num = 2` and an oracle
that always succeeds, `main` makes 2 `process_one` invocations and writes
the 2 records in order. -/
theorem main_invokes_and_writes_in_order_witness :
    truthy (some "A") = true ∧ ((0 : Int) ≤ (2 : Int)) ∧
    (∀ i, (process_one (rng0 i) (apiOk i)).2 = Except.ok rec0) ∧
    ((main (some "A") 2 rng0 apiOk).oneCalls = (2 : Int).toNat ∧
     (((2 : Int).toNat : Int) = (2 : Int)) ∧
     (main (some "A") 2 rng0 apiOk).written =
       some ((List.range (2 : Int).toNat).map (fun _ => rec0)) ∧
     ((List.range (2 : Int).toNat).map (fun _ => rec0)).length = (2 : Int).toNat) :=
  ⟨rfl, by decide, fun _ => rfl,
   main_invokes_and_writes_in_order (some "A") 2 rng0 apiOk (fun _ => rec0)
     rfl (by decide) (fun _ => rfl)⟩

/-- C2: when the (single) model call succeeds with text `s`, `process_one`
returns exactly the three-field record whose `task` is the constant "QA",
whose `user` is the final generated question, and whose `chain` is the
model's returned text verbatim, with no parsing applied. -/
theorem process_one_record_shape (r : Nat → Nat) (api : List Msg → Nat → Attempt) (s : String)
    (h : api (process_one_messages r) 0 = Except.ok s) :
    (process_one r api).2 =
      Except.ok { task := "QA", user := final_question r, chain := s } := by
  simp [process_one, call_gpt4o, retryGo, h, Except.map]

/-- C2 witness: with an oracle that immediately returns "x", `process_one`
yields exactly the record with task "QA", the final question, and chain
"x". -/
theorem process_one_record_shape_witness :
    api1Ok (process_one_messages r0) 0 = Except.ok "x" ∧
    (process_one r0 api1Ok).2 =
      Except.ok { task := "QA", user := final_question r0, chain := "x" } :=
  ⟨rfl, process_one_record_shape r0 api1Ok "x" rfl⟩

/-- C3: `call_gpt4o` retries rate-limit failures up to 3 attempts with
sleeps 2 then 4 (delay starting at 2 and doubling); two failures followed by
a success return the third attempt's result with no error; three failures
re-raise the rate-limit error; and `main`, which does not catch it, aborts
the whole run with nothing written. -/
theorem call_gpt4o_retry_behavior (f g : Nat → Attempt) (s : String)
    (key : Option String) (t : Int) (rng : Nat → Nat → Nat)
    (api : Nat → List Msg → Nat → Attempt)
    (hf0 : f 0 = Except.error ApiError.rateLimit)
    (hf1 : f 1 = Except.error ApiError.rateLimit)
    (hf2 : f 2 = Except.ok s)
    (hg : ∀ a, g a = Except.error ApiError.rateLimit)
    (hk : truthy key = true) (ht : 1 ≤ t)
    (hapi : ∀ ms a, api 0 ms a = Except.error ApiError.rateLimit) :
    call_gpt4o f = { attempts := 3, sleeps := [2, 4], result := Except.ok s } ∧
    call_gpt4o g = { attempts := 3, sleeps := [2, 4],
                     result := Except.error ApiError.rateLimit } ∧
    (main key t rng api).written = none ∧
    (main key t rng api).err = some (MainError.api ApiError.rateLimit) := by
  refine ⟨by simp [call_gpt4o, retryGo, hf0, hf1, hf2],
          by simp [call_gpt4o, retryGo, hg 0, hg 1, hg 2], ?_⟩
  have hfail : (process_one (rng 0) (api 0)).2 = Except.error ApiError.rateLimit := by
    simp [process_one, call_gpt4o, retryGo, hapi, Except.map]
  obtain ⟨a, ha⟩ := runLoop_first_fail rng api ApiError.rateLimit 0 t.toNat 0
    (by omega) (by simpa using hfail) (by intro j hj; omega)
  constructor <;> simp [main, hk, ha]

/-- C3 witness: a concrete oracle failing twice then succeeding yields the
third result after sleeps 2 and 4; a concrete always-failing oracle
re-raises after 3 attempts; and a `main` run over one item with an
always-rate-limited endpoint aborts with nothing written. -/
theorem call_gpt4o_retry_behavior_witness :
    fThird 0 = Except.error ApiError.rateLimit ∧
    fThird 1 = Except.error ApiError.rateLimit ∧
    fThird 2 = Except.ok "x" ∧
    (∀ a, gRL a = Except.error ApiError.rateLimit) ∧
    truthy (some "A") = true ∧ ((1 : Int) ≤ (1 : Int)) ∧
    (∀ ms a, apiRL 0 ms a = Except.error ApiError.rateLimit) ∧
    (call_gpt4o fThird = { attempts := 3, sleeps := [2, 4], result := Except.ok "x" } ∧
     call_gpt4o gRL = { attempts := 3, sleeps := [2, 4],
                        result := Except.error ApiError.rateLimit } ∧
     (main (some "A") 1 rng0 apiRL).written = none ∧
     (main (some "A") 1 rng0 apiRL).err = some (MainError.api ApiError.rateLimit)) :=
  ⟨rfl, rfl, rfl, fun _ => rfl, rfl, by decide, fun _ _ => rfl,
   call_gpt4o_retry_behavior fThird gRL "x" (some "A") 1 rng0 apiRL
     rfl rfl rfl (fun _ => rfl) rfl (by decide) (fun _ _ => rfl)⟩

/-- C4: the message sequence `process_one` sends is exactly one system
message, then exactly 3 warm-up user-question/assistant-answer-template
exchanges whose questions are formatted with the same sampled variables as
the final question, then exactly one final user question with no assistant
answer; and the item's whole endpoint interaction is one `call_gpt4o`
invocation on exactly that message list. -/
theorem process_one_priming_structure (r : Nat → Nat) (api : List Msg → Nat → Attempt) :
    process_one_messages r =
      [Msg.mk "system" system_message,
       Msg.mk "user" (warm_question r 0), Msg.mk "assistant" (assistant_shot (warm_question r 0)),
       Msg.mk "user" (warm_question r 1), Msg.mk "assistant" (assistant_shot (warm_question r 1)),
       Msg.mk "user" (warm_question r 2), Msg.mk "assistant" (assistant_shot (warm_question r 2)),
       Msg.mk "user" (final_question r)] ∧
    (∀ i, warm_question r i = fmt (choice user_templates (r (3 + i)))
      (sample_vars (r 0) (r 1) (r 2))) ∧
    final_question r = fmt (choice user_templates (r 6)) (sample_vars (r 0) (r 1) (r 2)) ∧
    (process_one r api).1 = call_gpt4o (api (process_one_messages r)) :=
  ⟨process_one_messages_eq r, fun _ => rfl, rfl, rfl⟩

/-- C5: every sampled variable comes from its fixed pool, and every
user-role message in the built message list is a template from the fixed
template pool formatted with the variables sampled for the item, so no
out-of-pool value ever appears as a placeholder substitution in a generated
question. -/
theorem sample_vars_in_pool (i1 i2 i3 : Nat) (r : Nat → Nat) (m : Msg)
    (hm : m ∈ process_one_messages r) (hrole : m.role = "user") :
    (sample_vars i1 i2 i3).disease ∈ diseasePool ∧
    (sample_vars i1 i2 i3).drug ∈ drugPool ∧
    (sample_vars i1 i2 i3).condition ∈ conditionPool ∧
    ∃ tpl, tpl ∈ user_templates ∧
      m.content = fmt tpl (sample_vars (r 0) (r 1) (r 2)) := by
  refine ⟨choice_mem _ _ (by simp [diseasePool]),
          choice_mem _ _ (by simp [drugPool]),
          choice_mem _ _ (by simp [conditionPool]), ?_⟩
  rw [process_one_messages_eq] at hm
  have hne : user_templates ≠ [] := by simp [user_templates]
  simp only [List.mem_cons, List.not_mem_nil, or_false] at hm
  rcases hm with h | h | h | h | h | h | h | h <;> subst h <;>
    first
      | exact ⟨choice user_templates (r 3), choice_mem _ _ hne, rfl⟩
      | exact ⟨choice user_templates (r 4), choice_mem _ _ hne, rfl⟩
      | exact ⟨choice user_templates (r 5), choice_mem _ _ hne, rfl⟩
      | exact ⟨choice user_templates (r 6), choice_mem _ _ hne, rfl⟩
      | exact absurd hrole (by simp)

/-- C5 witness: the final user question of a concrete item is a pool
template formatted with in-pool sampled values. -/
theorem sample_vars_in_pool_witness :
    Msg.mk "user" (final_question r0) ∈ process_one_messages r0 ∧
    (Msg.mk "user" (final_question r0)).role = "user" ∧
    ((sample_vars 0 0 0).disease ∈ diseasePool ∧
     (sample_vars 0 0 0).drug ∈ drugPool ∧
     (sample_vars 0 0 0).condition ∈ conditionPool ∧
     ∃ tpl, tpl ∈ user_templates ∧
       (Msg.mk "user" (final_question r0)).content =
         fmt tpl (sample_vars (r0 0) (r0 1) (r0 2))) := by
  have hm : Msg.mk "user" (final_question r0) ∈ process_one_messages r0 := by
    simp [process_one_messages]
  exact ⟨hm, rfl, sample_vars_in_pool 0 0 0 r0 (Msg.mk "user" (final_question r0)) hm rfl⟩

/-- C6: with the credential variable absent, `main` raises the fatal
configuration error before any item processing: zero `process_one`
invocations, zero endpoint attempts, and no output file written. -/
theorem main_missing_key_aborts (t : Int) (rng : Nat → Nat → Nat)
    (api : Nat → List Msg → Nat → Attempt) :
    main none t rng api =
      { oneCalls := 0, attempts := 0, written := none,
        err := some MainError.missingKey } := rfl

/-- C7: if the first failing item is item `k` (all earlier items succeed and
`k` is within range), the run terminates after `k + 1` `process_one`
invocations with the error propagated and the output file never written, so
already-processed items are lost. -/
theorem main_no_partial_write (key : Option String) (t : Int)
    (rng : Nat → Nat → Nat) (api : Nat → List Msg → Nat → Attempt) (k : Nat) (e : ApiError)
    (hk : truthy key = true) (hkt : k < t.toNat)
    (hfail : (process_one (rng k) (api k)).2 = Except.error e)
    (hok : ∀ j, j < k → ∃ rec, (process_one (rng j) (api j)).2 = Except.ok rec) :
    (main key t rng api).written = none ∧
    (main key t rng api).oneCalls = k + 1 ∧
    (main key t rng api).err = some (MainError.api e) := by
  obtain ⟨a, ha⟩ := runLoop_first_fail rng api e k t.toNat 0 hkt
    (by simpa using hfail) (by intro j hj; simpa using hok j hj)
  refine ⟨?_, ?_, ?_⟩ <;> simp [main, hk, ha]

/-- C7 witness: a one-item run whose only item fails leaves the output
unwritten after exactly one `process_one` invocation. -/
theorem main_no_partial_write_witness :
    truthy (some "A") = true ∧ 0 < (1 : Int).toNat ∧
    (process_one (rng0 0) (apiRL 0)).2 = Except.error ApiError.rateLimit ∧
    ((main (some "A") 1 rng0 apiRL).written = none ∧
     (main (some "A") 1 rng0 apiRL).oneCalls = 0 + 1 ∧
     (main (some "A") 1 rng0 apiRL).err = some (MainError.api ApiError.rateLimit)) :=
  ⟨rfl, by decide, rfl,
   main_no_partial_write (some "A") 1 rng0 apiRL 0 ApiError.rateLimit
     rfl (by decide) rfl (fun j hj => absurd hj (Nat.not_lt_zero j))⟩

/-- C8: the one-shot variant's assembled conversation record always has
exactly 4 turns in the fixed from-order human, gpt, human, gpt (assembler
modelled from the spec; its source file is not under src/). -/
theorem assemble_record_four_turns (question thoughts : String) (actions : List Action)
    (answer instruction : String) (idx : Nat) :
    (assemble_record question thoughts actions answer instruction idx).conversations.length = 4 ∧
    (assemble_record question thoughts actions answer instruction idx).conversations.map
      (fun turn => turn.fromRole) = ["human", "gpt", "human", "gpt"] :=
  ⟨rfl, rfl⟩

/-- C9: for `total_num ≤ 0` with the credential present, `main` makes zero
`process_one` invocations and zero endpoint attempts, and writes the empty
collection without raising any error. -/
theorem main_nonpositive_total (key : Option String) (t : Int) (rng : Nat → Nat → Nat)
    (api : Nat → List Msg → Nat → Attempt)
    (hk : truthy key = true) (ht : t ≤ 0) :
    main key t rng api =
      { oneCalls := 0, attempts := 0, written := some [], err := none } := by
  have h0 : t.toNat = 0 := by omega
  simp [main, hk, h0, runLoop]

/-- C9 witness: with the credential set and `total_num = -3`, `main` writes
the empty collection with no calls and no error. -/
theorem main_nonpositive_total_witness :
    truthy (some "A") = true ∧ ((-3 : Int) ≤ 0) ∧
    main (some "A") (-3) rng0 apiRL =
      { oneCalls := 0, attempts := 0, written := some [], err := none } :=
  ⟨rfl, by decide, main_nonpositive_total (some "A") (-3) rng0 apiRL rfl (by decide)⟩

/-- C10: an empty-string credential is treated exactly like an absent one,
because the check tests falsiness of the value: `main` raises the same fatal
configuration error before any processing. -/
theorem main_empty_key_same_as_absent (t : Int) (rng : Nat → Nat → Nat)
    (api : Nat → List Msg → Nat → Attempt) :
    main (some "") t rng api = main none t rng api ∧
    main (some "") t rng api =
      { oneCalls := 0, attempts := 0, written := none,
        err := some MainError.missingKey } :=
  ⟨rfl, rfl⟩

end QaBuilder
